import Mathlib

/-!
Verification of the Bubble multiplayer subsystem.

Shallow embedding of the networking / synchronization code:
`src/network/MessageTypes.ts` (message validation),
`src/network/GameStateSync.ts` (snapshot serialize / apply),
`src/network/NetworkManager.ts` (connection state, room codes, send),
`src/MultiplayerGameManager.ts` (in-game message dispatch, input application),
and the lobby ready handshake of `LobbyUI`.

JavaScript numbers that the code only copies and compares are modelled as
`Int`; the JS `x || d` falsy-default idiom on numbers is modelled by `jsOr`
(`0` is the only falsy `Int`; `NaN` is not modelled).
-/

namespace Bubble

/-- JS `x || d` on numbers: `x` when truthy (nonzero), else the default `d`. -/
def jsOr (v d : Int) : Int := if v = 0 then d else v

/-- Modify the element at index `n`, no-op when out of range.  Mirrors a JS
`xs[n] = f(xs[n])` mutation guarded by an index check. -/
def modifyNth (f : α → α) : List α → Nat → List α
  | [], _ => []
  | a :: l, 0 => f a :: l
  | a :: l, n + 1 => a :: modifyNth f l n

/-! ## Data model (from `MessageTypes.ts` and the simulation fields the sync
engine touches) -/

/-- `Movement` enum from `src/utils/enum` (module not in the corpus; its three
constructors are taken from their uses in `MultiplayerGameManager.ts` and
`GameManager.ts`). -/
inductive Movement where
  | LEFT
  | RIGHT
  | STATIONARY
deriving DecidableEq, Repr

/-- A player's arrow object (`player.arrow`): the fields read or written by
`GameStateSync` and `MultiplayerGameManager.applyInputToPlayer`. -/
structure ArrowObj where
  x : Int
  y : Int
  isActive : Bool
  isHittable : Bool
deriving DecidableEq, Repr

/-- A seated player inside the simulation (`gameManager.players[i]`): the
fields the sync engine reads and writes. -/
structure Player where
  x : Int
  y : Int
  score : Int
  lives : Int
  movement : Movement
  arrow : Option ArrowObj
deriving DecidableEq, Repr

/-- A breakable object in `gameManager.bubbleArray`. -/
structure BubbleObj where
  x : Int
  y : Int
  radius : Int
  dx : Int
  dy : Int
deriving DecidableEq, Repr

/-- The aggregate score record (`gameManager.score`), optional because the
code guards every access with `gameManager.score?` / `if (gameManager.score)`. -/
structure ScoreObj where
  score : Int
deriving DecidableEq, Repr

/-- The slice of the simulation (`gameManager`) that `GameStateSync` and
`MultiplayerGameManager` observe and mutate. -/
structure GameManager where
  players : List Player
  bubbleArray : List BubbleObj
  score : Option ScoreObj
  timeRemaining : Int
  currentLevel : Int
deriving DecidableEq, Repr

/-- `PlayerState` of `MessageTypes.ts`. -/
structure PlayerState where
  x : Int
  y : Int
  score : Int
  lives : Int
deriving DecidableEq, Repr

/-- `BubbleState` of `MessageTypes.ts`. -/
structure BubbleState where
  x : Int
  y : Int
  radius : Int
  dx : Int
  dy : Int
deriving DecidableEq, Repr

/-- `ArrowState` of `MessageTypes.ts`. -/
structure ArrowState where
  x : Int
  y : Int
  isActive : Bool
deriving DecidableEq, Repr

/-- `GameState` snapshot of `MessageTypes.ts`.  The player records are
`Option`s because `applyGameState` guards them with a truthiness test
(`state.player1 && ...`) and deltas (`createDelta`) omit unchanged players. -/
structure GameState where
  player1 : Option PlayerState
  player2 : Option PlayerState
  bubbles : List BubbleState
  arrows : List ArrowState
  score : Int
  timeRemaining : Int
  level : Int
deriving DecidableEq, Repr

/-! ## GameStateSync (`src/network/GameStateSync.ts`) -/

/-- `GameStateSync.serializePlayer`. -/
def serializePlayer : Option Player → PlayerState
  | none => { x := 0, y := 0, score := 0, lives := 0 }
  | some p => { x := jsOr p.x 0, y := jsOr p.y 0, score := jsOr p.score 0, lives := jsOr p.lives 3 }

/-- `GameStateSync.serializeBubbles`. -/
def serializeBubbles (bubbles : List BubbleObj) : List BubbleState :=
  bubbles.map fun b =>
    { x := jsOr b.x 0, y := jsOr b.y 0, radius := jsOr b.radius 0,
      dx := jsOr b.dx 0, dy := jsOr b.dy 0 }

/-- `GameStateSync.serializeArrows`: pushes one entry per player whose arrow
exists and is active, in player order (inactive seats contribute no slot). -/
def serializeArrows (players : List Player) : List ArrowState :=
  players.filterMap fun p =>
    match p.arrow with
    | some a => if a.isActive then some { x := jsOr a.x 0, y := jsOr a.y 0, isActive := true } else none
    | none => none

/-- `GameStateSync.serializeGameState`. -/
def serializeGameState (gm : GameManager) : GameState :=
  { player1 := some (serializePlayer gm.players[0]?)
    player2 := some (serializePlayer gm.players[1]?)
    bubbles := serializeBubbles gm.bubbleArray
    arrows := serializeArrows gm.players
    score := match gm.score with
      | some s => jsOr s.score 0
      | none => 0
    timeRemaining := jsOr gm.timeRemaining 0
    level := jsOr gm.currentLevel 1 }

/-- `GameStateSync.applyPlayerState`. -/
def applyPlayerState (p : Player) (st : PlayerState) : Player :=
  { p with x := st.x, y := st.y, score := st.score, lives := st.lives }

/-- `GameStateSync.applyBubbles`: full replacement of `bubbleArray` by freshly
built objects. -/
def applyBubbles (gm : GameManager) (bubbles : List BubbleState) : GameManager :=
  { gm with bubbleArray := bubbles.map fun b =>
      { x := b.x, y := b.y, radius := b.radius, dx := b.dx, dy := b.dy } }

/-- First loop of `GameStateSync.applyArrows`: `player.arrow.isActive = false`
for every player that has an arrow. -/
def resetArrow (p : Player) : Player :=
  match p.arrow with
  | some a => { p with arrow := some { a with isActive := false } }
  | none => p

/-- Body of the second loop of `applyArrows`: write the snapshot arrow's
fields into `players[index].arrow` when that arrow object exists. -/
def setArrowIfPresent (a : ArrowState) (p : Player) : Player :=
  match p.arrow with
  | some ar => { p with arrow := some { ar with x := a.x, y := a.y, isActive := a.isActive } }
  | none => p

/-- One step of the second loop of `applyArrows`
(`players[index].arrow = ...` guarded by `index < players.length`). -/
def applyArrowAt (players : List Player) (index : Nat) (a : ArrowState) : List Player :=
  modifyNth (setArrowIfPresent a) players index

/-- The `arrows.forEach((arrowState, index) => ...)` loop of `applyArrows`. -/
def applyArrowsLoop (players : List Player) (arrows : List ArrowState) (index : Nat) : List Player :=
  match arrows with
  | [] => players
  | a :: rest => applyArrowsLoop (applyArrowAt players index a) rest (index + 1)

/-- `GameStateSync.applyArrows`: reset every arrow, then apply the snapshot's
arrow list positionally. -/
def applyArrows (players : List Player) (arrows : List ArrowState) : List Player :=
  applyArrowsLoop (players.map resetArrow) arrows 0

/-- The two guarded seat updates at the top of `applyGameState`
(`if (players[0] && state.player1) ...`, `if (players[1] && state.player2) ...`). -/
def applyPlayerRecords (players : List Player) (st : GameState) : List Player :=
  let players :=
    match players[0]?, st.player1 with
    | some _, some s => modifyNth (applyPlayerState · s) players 0
    | _, _ => players
  match players[1]?, st.player2 with
  | some _, some s => modifyNth (applyPlayerState · s) players 1
  | _, _ => players

/-- `GameStateSync.applyGameState`. -/
def applyGameState (gm : GameManager) (st : GameState) : GameManager :=
  let gm := { gm with players := applyPlayerRecords gm.players st }
  let gm := applyBubbles gm st.bubbles
  let gm := { gm with players := applyArrows gm.players st.arrows }
  let gm := { gm with score := match gm.score with
    | some sc => some { sc with score := st.score }
    | none => none }
  { gm with timeRemaining := st.timeRemaining, currentLevel := st.level }

/-! ## Message validation (`MessageTypes.ts`) -/

/-- An untyped JavaScript value, as far as `validateMessage` inspects one.
Numbers are modelled as `Int` (`NaN` is not modelled). -/
inductive JSValue where
  | undefined
  | null
  | bool (b : Bool)
  | num (n : Int)
  | str (s : String)
  | obj (fields : List (String × JSValue))

/-- JS member access `v.k`: the first field named `k`, `undefined` when the
field is absent or the value has no fields. -/
def getField (v : JSValue) (k : String) : JSValue :=
  match v with
  | .obj fields =>
    match fields.find? (fun kv => kv.1 == k) with
    | some kv => kv.2
    | none => .undefined
  | _ => .undefined

/-- JS truthiness of the modelled values. -/
def truthy : JSValue → Bool
  | .undefined => false
  | .null => false
  | .bool b => b
  | .num n => n != 0
  | .str s => s != ""
  | .obj _ => true

/-- JS `typeof`. -/
def jsTypeof : JSValue → String
  | .undefined => "undefined"
  | .null => "object"
  | .bool _ => "boolean"
  | .num _ => "number"
  | .str _ => "string"
  | .obj _ => "object"

/-- `Object.values(MessageType)`: the six recognized type tags. -/
def messageTypeValues : List String :=
  ["INPUT", "STATE_UPDATE", "SYNC", "GAME_OVER", "PLAYER_READY", "START_GAME"]

/-- `Object.values(MessageType).includes(msg.type)`: the tag is one of the
six recognized strings (string identity, as JS `includes` uses `===`). -/
def isRecognizedTag (t : JSValue) : Bool :=
  match t with
  | .str s => messageTypeValues.contains s
  | _ => false

/-- The `case MessageType.INPUT` arm of `validateMessage`. -/
def validateInputCase (msg : JSValue) : Bool :=
  truthy (getField msg "data")
    && jsTypeof (getField (getField msg "data") "left") == "boolean"
    && jsTypeof (getField (getField msg "data") "right") == "boolean"
    && jsTypeof (getField (getField msg "data") "shoot") == "boolean"

/-- The `case MessageType.STATE_UPDATE` arm of `validateMessage`. -/
def validateStateUpdateCase (msg : JSValue) : Bool :=
  truthy (getField msg "data") && jsTypeof (getField msg "data") == "object"

/-- The `case MessageType.GAME_OVER` arm of `validateMessage`. -/
def validateGameOverCase (msg : JSValue) : Bool :=
  jsTypeof (getField msg "won") == "boolean"
    && jsTypeof (getField msg "finalScore") == "number"

/-- The `case MessageType.PLAYER_READY` arm of `validateMessage`. -/
def validatePlayerReadyCase (msg : JSValue) : Bool :=
  jsTypeof (getField msg "playerName") == "string"

/-- The `switch (msg.type)` of `validateMessage` (the `default` arm is
unreachable after the `includes` check, and returns `false`). -/
def validateSwitch (msg : JSValue) (s : String) : Bool :=
  if s = "INPUT" then validateInputCase msg
  else if s = "STATE_UPDATE" then validateStateUpdateCase msg
  else if s = "SYNC" then true
  else if s = "GAME_OVER" then validateGameOverCase msg
  else if s = "PLAYER_READY" then validatePlayerReadyCase msg
  else if s = "START_GAME" then true
  else false

/-- `validateMessage` of `MessageTypes.ts`, translated clause by clause. -/
def validateMessage (msg : JSValue) : Bool :=
  if !truthy msg then false
  else if jsTypeof msg != "object" then false
  else if !truthy (getField msg "type") then false
  else if !isRecognizedTag (getField msg "type") then false
  else if jsTypeof (getField msg "timestamp") != "number" then false
  else
    match getField msg "type" with
    | .str s => validateSwitch msg s
    | _ => false

/-- Runtime type check: the value is an object. -/
def isObjVal : JSValue → Bool
  | .obj _ => true
  | _ => false

/-- Runtime type check: the value is a boolean. -/
def isBoolVal : JSValue → Bool
  | .bool _ => true
  | _ => false

/-- Runtime type check: the value is a number. -/
def isNumVal : JSValue → Bool
  | .num _ => true
  | _ => false

/-- Runtime type check: the value is a string. -/
def isStrVal : JSValue → Bool
  | .str _ => true
  | _ => false

/-- Spec-side requirement on the fields of a message with a recognized tag,
written from the claim's words: `data.left/right/shoot` booleans for
`INPUT`, an object `data` for `STATE_UPDATE`, boolean `won` and numeric
`finalScore` for `GAME_OVER`, a string `playerName` for `PLAYER_READY`;
`SYNC` and `START_GAME` need nothing beyond tag and timestamp. -/
def specTagPayloadOk (m : JSValue) : Bool :=
  match getField m "type" with
  | .str s =>
    if s = "INPUT" then
      isBoolVal (getField (getField m "data") "left")
        && isBoolVal (getField (getField m "data") "right")
        && isBoolVal (getField (getField m "data") "shoot")
    else if s = "STATE_UPDATE" then isObjVal (getField m "data")
    else if s = "SYNC" then true
    else if s = "GAME_OVER" then
      isBoolVal (getField m "won") && isNumVal (getField m "finalScore")
    else if s = "PLAYER_READY" then isStrVal (getField m "playerName")
    else if s = "START_GAME" then true
    else false
  | _ => false

/-- Spec-side well-formedness, written from the claim's words (for the
refinement comparison with `validateMessage`): the value is an object whose
`type` tag is one of the six recognized strings, whose `timestamp` is
numeric, and whose required fields for that declared type are present with
the right runtime types. -/
def specAccepts (m : JSValue) : Bool :=
  isObjVal m && isNumVal (getField m "timestamp") && specTagPayloadOk m

/-! ## Observables used to state the claims -/

/-- The observable seat record named by the spec: position, score, lives. -/
def seatObs (p : Player) : Int × Int × Int × Int := (p.x, p.y, p.score, p.lives)

/-- Whether a seat's projectile is active (`player.arrow?.isActive`,
`false` when the arrow object is absent). -/
def arrowActive (p : Player) : Bool :=
  match p.arrow with
  | some a => a.isActive
  | none => false

/-- The projectile-active flag the positional `applyArrows` pass is expected
to leave at seat `k + position`: the snapshot entry at the seat's list index
when one exists and the seat holds an arrow object, else inactive. -/
def expectedFlagsLoop (players : List Player) (arrows : List ArrowState) (k : Nat) : List Bool :=
  match players with
  | [] => []
  | p :: rest =>
    (match p.arrow, arrows.get? k with
      | some _, some a => a.isActive
      | some _, none => false
      | none, _ => false) :: expectedFlagsLoop rest arrows (k + 1)

/-- Per-seat projectile-active flags derived from a snapshot's arrow list. -/
def expectedArrowFlags (players : List Player) (arrows : List ArrowState) : List Bool :=
  expectedFlagsLoop players arrows 0

/-- A concrete seated player used to instantiate hypothesised theorems. -/
def samplePlayer0 : Player :=
  { x := 10, y := 20, score := 1, lives := 3, movement := .STATIONARY,
    arrow := some { x := 5, y := 6, isActive := true, isHittable := true } }

/-- A second concrete seated player (no arrow object). -/
def samplePlayer1 : Player :=
  { x := 30, y := 40, score := 2, lives := 2, movement := .LEFT, arrow := none }

/-- A concrete simulation state with two seated players. -/
def sampleGM : GameManager :=
  { players := [samplePlayer0, samplePlayer1]
    bubbleArray := [{ x := 1, y := 2, radius := 3, dx := 4, dy := 5 }]
    score := some { score := 9 }
    timeRemaining := 30
    currentLevel := 1 }

/-- A concrete delta-style snapshot with both player records absent. -/
def sampleDeltaState : GameState :=
  { player1 := none
    player2 := none
    bubbles := [{ x := 7, y := 8, radius := 9, dx := 1, dy := 2 }]
    arrows := [{ x := 11, y := 12, isActive := true }]
    score := 42
    timeRemaining := 555
    level := 3 }

/-- A simulation whose seat-0 player has `lives = 0` (a dead player):
`serializePlayer` turns falsy lives into the default `3`. -/
def zeroLivesGM : GameManager :=
  { players :=
      [{ x := 10, y := 20, score := 1, lives := 0, movement := .STATIONARY, arrow := none },
       { x := 30, y := 40, score := 2, lives := 2, movement := .LEFT, arrow := none }]
    bubbleArray := []
    score := some { score := 3 }
    timeRemaining := 30
    currentLevel := 1 }

/-- A simulation where only seat 1's arrow is active: `serializeArrows` omits
the inactive seat-0 slot, and `applyArrows` matches positionally, so the
round trip re-activates seat 0 instead of seat 1. -/
def lonelyArrowGM : GameManager :=
  { players :=
      [{ x := 10, y := 20, score := 1, lives := 3, movement := .STATIONARY,
         arrow := some { x := 1, y := 1, isActive := false, isHittable := false } },
       { x := 30, y := 40, score := 2, lives := 2, movement := .LEFT,
         arrow := some { x := 2, y := 2, isActive := true, isHittable := true } }]
    bubbleArray := []
    score := some { score := 3 }
    timeRemaining := 30
    currentLevel := 1 }

/-- Arrow of the seat-0 player of `roundTripGM` (active). -/
def rtArrow0 : ArrowObj := { x := 50, y := 60, isActive := true, isHittable := true }

/-- Arrow of the seat-1 player of `roundTripGM` (inactive). -/
def rtArrow1 : ArrowObj := { x := 70, y := 80, isActive := false, isHittable := false }

/-- Seat-0 player of `roundTripGM`. -/
def rtPlayer0 : Player :=
  { x := 10, y := 20, score := 1, lives := 3, movement := .STATIONARY, arrow := some rtArrow0 }

/-- Seat-1 player of `roundTripGM`. -/
def rtPlayer1 : Player :=
  { x := 30, y := 40, score := 2, lives := 2, movement := .LEFT, arrow := some rtArrow1 }

/-- A concrete simulation satisfying the amended round-trip hypotheses. -/
def roundTripGM : GameManager :=
  { players := [rtPlayer0, rtPlayer1]
    bubbleArray := [{ x := 1, y := 2, radius := 3, dx := 4, dy := 5 },
                    { x := 0, y := 9, radius := 8, dx := 0, dy := 7 }]
    score := some { score := 3 }
    timeRemaining := 30
    currentLevel := 1 }

/-- The concrete Scenario B snapshot of the spec:
`{player1:{x:100,y:200,score:5,lives:2}, bubbles:[], arrows:[], score:5,
timeRemaining:12000, level:2}` (no `player2` record). -/
def snapshotB : GameState :=
  { player1 := some { x := 100, y := 200, score := 5, lives := 2 }
    player2 := none
    bubbles := []
    arrows := []
    score := 5
    timeRemaining := 12000
    level := 2 }

/-! ## Network messages as typed values (`MessageTypes.ts` union) -/

/-- `InputState` of `MessageTypes.ts`. -/
structure InputState where
  left : Bool
  right : Bool
  shoot : Bool
deriving DecidableEq, Repr

/-- The `NetworkMessage` tagged union of `MessageTypes.ts` (messages that
passed validation). -/
inductive NetMsg where
  | input (data : InputState) (timestamp : Int)
  | stateUpdate (data : GameState) (timestamp : Int)
  | sync (timestamp : Int)
  | gameOver (won : Bool) (finalScore : Int) (timestamp : Int)
  | playerReady (playerName : String) (timestamp : Int)
  | startGame (timestamp : Int)
deriving DecidableEq

/-! ## MultiplayerGameManager (`src/MultiplayerGameManager.ts`) -/

/-- The fields of `MultiplayerGameManager` that its message handler and
input application read or write. -/
structure MPState where
  isHost : Bool
  inLobby : Bool
  gameManager : Option GameManager
  remoteInput : InputState
deriving DecidableEq

/-- `MultiplayerGameManager.handleNetworkMessage`: `INPUT` stores the remote
input, `STATE_UPDATE` applies the snapshot only when not host and a game
exists, `GAME_OVER` only logs, other types fall through. -/
def handleNetworkMessage (s : MPState) (m : NetMsg) : MPState :=
  match m with
  | .input d _ => { s with remoteInput := d }
  | .stateUpdate st _ =>
    if !s.isHost then
      match s.gameManager with
      | some gm => { s with gameManager := some (applyGameState gm st) }
      | none => s
    else s
  | .gameOver _ _ _ => s
  | _ => s

/-- Body of `MultiplayerGameManager.applyInputToPlayer` acting on one player:
movement from `left`/`right` (else stationary), and arrow activation when
`shoot` is pressed and the arrow is not already active. -/
def applyInput (input : InputState) (p : Player) : Player :=
  let p :=
    if input.left then { p with movement := .LEFT }
    else if input.right then { p with movement := .RIGHT }
    else { p with movement := .STATIONARY }
  if input.shoot && !(match p.arrow with | some a => a.isActive | none => false) then
    match p.arrow with
    | some a => { p with arrow := some { a with isActive := true, isHittable := true } }
    | none => p
  else p

/-- `MultiplayerGameManager.applyInputToPlayer`: guarded by the game and the
indexed player existing. -/
def applyInputToPlayer (s : MPState) (playerIndex : Nat) (input : InputState) : MPState :=
  match s.gameManager with
  | none => s
  | some gm =>
    match gm.players[playerIndex]? with
    | none => s
    | some _ =>
      let gm' := { gm with players := modifyNth (applyInput input) gm.players playerIndex }
      { s with gameManager := some gm' }

/-- A concrete `MultiplayerGameManager` state for witnesses. -/
def sampleMPState : MPState :=
  { isHost := true, inLobby := false, gameManager := some sampleGM,
    remoteInput := { left := false, right := false, shoot := false } }

/-! ## LobbyUI ready handshake (`LobbyUI.ts`) -/

/-- `LobbyUI.mode`. -/
inductive LobbyMode where
  | menu
  | create
  | join
deriving DecidableEq, Repr

/-- The `LobbyUI` fields driving the ready handshake; `started` records that
`startGame()` has fired (the `onGameStart` callback was invoked). -/
structure LobbyState where
  mode : LobbyMode
  roomCodeInput : String
  isReady : Bool
  remoteReady : Bool
  started : Bool
deriving DecidableEq

/-- Messages the lobby can send (`PLAYER_READY`, `START_GAME`). -/
inductive LobbyOut where
  | playerReadyMsg
  | startGameMsg
deriving DecidableEq, Repr

/-- The events that drive the ready handshake: pressing `R` (with the
current `isConnected()` answer), receiving `PLAYER_READY`, receiving
`START_GAME`, and pressing Escape. -/
inductive LobbyEvent where
  | keyR (connected : Bool)
  | recvPlayerReady
  | recvStartGame
  | keyEscape
deriving DecidableEq, Repr

/-- `LobbyUI.checkBothReady`: when both flags are true, the host sends
`START_GAME` and starts itself; a non-host does nothing. -/
def checkBothReady (isHostPlayer : Bool) (s : LobbyState) : LobbyState × List LobbyOut :=
  if s.isReady && s.remoteReady then
    if isHostPlayer then ({ s with started := true }, [.startGameMsg])
    else (s, [])
  else (s, [])

/-- One step of the lobby handshake: the `keydown` handler's branches for
`R`/Escape and the `setOnMessage` callback for `PLAYER_READY`/`START_GAME`,
from `LobbyUI.setupInputHandlers` and `LobbyUI.setupNetworkCallbacks`. -/
def lobbyStep (isHostPlayer : Bool) (s : LobbyState) (e : LobbyEvent) :
    LobbyState × List LobbyOut :=
  match e with
  | .keyR connected =>
    if s.mode = .menu then (s, [])
    else if s.mode = .join then
      ({ s with roomCodeInput :=
          if s.roomCodeInput.length < 6 then s.roomCodeInput ++ "R" else s.roomCodeInput }, [])
    else if connected && !s.isReady then
      let s1 := { s with isReady := true }
      let r := checkBothReady isHostPlayer s1
      (r.1, .playerReadyMsg :: r.2)
    else (s, [])
  | .recvPlayerReady =>
    checkBothReady isHostPlayer { s with remoteReady := true }
  | .recvStartGame => ({ s with started := true }, [])
  | .keyEscape =>
    if s.mode = .menu then (s, [])
    else
      let s1 := { s with
        mode := LobbyMode.menu
        roomCodeInput := ""
        isReady := false
        remoteReady := false }
      (s1, [])

/-- Whether a `START_GAME` message is among the step's outputs. -/
def sentStartGame : List LobbyOut → Bool
  | [] => false
  | .startGameMsg :: _ => true
  | .playerReadyMsg :: rest => sentStartGame rest

/-- Whether the event invokes `checkBothReady` (an accepted `R` press or a
received `PLAYER_READY`). -/
def checkInvoked (s : LobbyState) (e : LobbyEvent) : Bool :=
  match e with
  | .keyR connected =>
    !(s.mode = LobbyMode.menu : Bool) && !(s.mode = LobbyMode.join : Bool)
      && connected && !s.isReady
  | .recvPlayerReady => true
  | _ => false

/-- Whether the event is the receipt of a `START_GAME` message. -/
def isRecvStartGame : LobbyEvent → Bool
  | .recvStartGame => true
  | _ => false

/-! ## NetworkManager (`src/network/NetworkManager.ts`) -/

/-- `ConnectionStatus` of `NetworkManager.ts`. -/
inductive ConnStatus where
  | disconnected
  | connecting
  | connected
  | error
deriving DecidableEq, Repr

/-- The transport data channel, as far as `NetworkManager` consults it
(`connection.open`). -/
structure DataChannel where
  isOpen : Bool
deriving DecidableEq, Repr

/-- The `NetworkManager` fields involved in the verified claims. -/
structure NetworkManagerState where
  isHost : Bool
  roomCode : String
  status : ConnStatus
  connection : Option DataChannel
deriving DecidableEq, Repr

/-- Whether a connection object exists and its channel reports open
(the `this.connection && this.connection.open` test). -/
def channelOpen (s : NetworkManagerState) : Bool :=
  match s.connection with
  | some c => c.isOpen
  | none => false

/-- The externally observable effects of one `send` call. -/
inductive SendAction where
  | transmitted (m : NetMsg)
  | warned
  | errorLogged
deriving DecidableEq

/-- `NetworkManager.send`: transmit when a connection exists and its channel
is open (a transport throw inside the `try` is caught and logged);
otherwise log a warning and drop.  The state is returned unchanged — there
is no queue and no retry. -/
def send (s : NetworkManagerState) (m : NetMsg) (transportFails : Bool) :
    List SendAction × NetworkManagerState :=
  match s.connection with
  | some c =>
    if c.isOpen then
      if transportFails then ([.errorLogged], s) else ([.transmitted m], s)
    else ([.warned], s)
  | none => ([.warned], s)

/-- A state whose status is `error` while the channel still reports open. -/
def errOpenState : NetworkManagerState :=
  { isHost := true, roomCode := "ABC123", status := .error,
    connection := some { isOpen := true } }

/-- A disconnected state with no connection object. -/
def closedState : NetworkManagerState :=
  { isHost := false, roomCode := "", status := .disconnected, connection := none }

/-- The alphabet of `generateRoomCode`
(`'ABCDEFGHIJKLMNOPQRSTUVWXYZ0123456789'`). -/
def roomChars : List Char := "ABCDEFGHIJKLMNOPQRSTUVWXYZ0123456789".toList

/-- `NetworkManager.generateRoomCode`: six characters drawn from
`roomChars` at the indices produced by `Math.floor(Math.random() * 36)`
(modelled by the random stream `r`, each sample below the alphabet size). -/
def generateRoomCode (r : Nat → Fin 36) : String :=
  String.mk ((List.range 6).map fun i => roomChars.get (Fin.cast (by decide) (r i)))

/-- `String.prototype.toUpperCase`, on the basic-latin fragment the room
codes use. -/
def jsToUpperCase (s : String) : String := String.mk (s.data.map Char.toUpper)

/-- What `joinRoom` determines: the updated manager state and the peer id
passed to `this.peer.connect(...)`. -/
structure JoinRoomResult where
  state : NetworkManagerState
  connectTarget : String
deriving DecidableEq, Repr

/-- `NetworkManager.joinRoom`: store the guest role and the upper-cased code,
enter `connecting`, and connect to the stored room code. -/
def joinRoom (s : NetworkManagerState) (code : String) : JoinRoomResult :=
  let s := { s with isHost := false, roomCode := jsToUpperCase code, status := .connecting }
  { state := s, connectTarget := s.roomCode }

end Bubble

namespace Bubble

/-! ## Basic lemmas about the helpers -/

theorem jsOr_zero (v : Int) : jsOr v 0 = v := by
  unfold jsOr; split <;> simp_all

theorem jsOr_of_ne (v d : Int) (h : v ≠ 0) : jsOr v d = v := by
  simp [jsOr, h]

theorem modifyNth_getElem? (f : α → α) (l : List α) (n i : Nat) :
    (modifyNth f l n)[i]? = if i = n then (l[i]?).map f else l[i]? := by
  induction l generalizing n i with
  | nil => simp [modifyNth]
  | cons a t ih =>
    cases n with
    | zero => cases i <;> simp [modifyNth]
    | succ m =>
      cases i with
      | zero => simp [modifyNth]
      | succ j => simpa [modifyNth] using ih m j

theorem modifyNth_length (f : α → α) (l : List α) (n : Nat) :
    (modifyNth f l n).length = l.length := by
  induction l generalizing n with
  | nil => simp [modifyNth]
  | cons a t ih => cases n <;> simp [modifyNth, ih]

/-! ## Characterization of the arrow application loop -/

theorem seatObs_resetArrow (p : Player) : seatObs (resetArrow p) = seatObs p := by
  cases h : p.arrow <;> simp [resetArrow, seatObs, h]

theorem seatObs_setArrowIfPresent (a : ArrowState) (p : Player) :
    seatObs (setArrowIfPresent a p) = seatObs p := by
  cases h : p.arrow <;> simp [setArrowIfPresent, seatObs, h]

theorem arrowActive_resetArrow (p : Player) : arrowActive (resetArrow p) = false := by
  cases h : p.arrow <;> simp [resetArrow, arrowActive, h]

theorem arrow_resetArrow (p : Player) : (resetArrow p).arrow.isSome = p.arrow.isSome := by
  cases h : p.arrow <;> simp [resetArrow, h]

theorem arrowActive_setArrowIfPresent (a : ArrowState) (p : Player) :
    arrowActive (setArrowIfPresent a p) = if p.arrow.isSome then a.isActive else false := by
  cases h : p.arrow <;> simp [setArrowIfPresent, arrowActive, h]

theorem applyArrowsLoop_getElem? (arrows : List ArrowState) (ps : List Player) (k i : Nat) :
    (applyArrowsLoop ps arrows k)[i]? =
      match (if k ≤ i then arrows[i - k]? else none) with
      | some a => (ps[i]?).map (setArrowIfPresent a)
      | none => ps[i]? := by
  induction arrows generalizing ps k with
  | nil =>
    rw [applyArrowsLoop]
    have h : (if k ≤ i then ([] : List ArrowState)[i - k]? else none) = none := by
      split <;> simp
    rw [h]
  | cons a rest ih =>
    rw [applyArrowsLoop, ih]
    unfold applyArrowAt
    rcases Nat.lt_trichotomy i k with hik | hik | hik
    · have h1 : ¬ k ≤ i := by omega
      have h2 : ¬ k + 1 ≤ i := by omega
      simp [h1, h2, modifyNth_getElem?, Nat.ne_of_lt hik]
    · subst hik
      have h2 : ¬ i + 1 ≤ i := by omega
      simp [h2, modifyNth_getElem?]
    · have h1 : k ≤ i := by omega
      have h2 : k + 1 ≤ i := by omega
      have h3 : i - k = (i - (k + 1)) + 1 := by omega
      have hne : i ≠ k := by omega
      simp only [h1, h2, if_true, h3, modifyNth_getElem?, hne, if_false,
        List.getElem?_cons_succ]

theorem expectedFlagsLoop_getElem? (arrows : List ArrowState) (ps : List Player) (k i : Nat) :
    (expectedFlagsLoop ps arrows k)[i]? =
      (ps[i]?).map fun p =>
        match p.arrow, arrows[k + i]? with
        | some _, some a => a.isActive
        | some _, none => false
        | none, _ => false := by
  induction ps generalizing k i with
  | nil => simp [expectedFlagsLoop]
  | cons p rest ih =>
    cases i with
    | zero => simp [expectedFlagsLoop]
    | succ j =>
      rw [expectedFlagsLoop]
      have h : k + 1 + j = k + (j + 1) := by omega
      simp only [List.getElem?_cons_succ, ih, h]

theorem applyArrows_map_arrowActive (ps : List Player) (arrows : List ArrowState) :
    (applyArrows ps arrows).map arrowActive = expectedArrowFlags ps arrows := by
  apply List.ext_getElem?
  intro i
  rw [List.getElem?_map, applyArrows, applyArrowsLoop_getElem?, expectedArrowFlags,
    expectedFlagsLoop_getElem?]
  rw [if_pos (Nat.zero_le i), Nat.sub_zero]
  have hz : ∀ j : Nat, 0 + j = j := fun j => Nat.zero_add j
  cases harr : arrows[i]? with
  | none =>
    cases hp : ps[i]? with
    | none => simp [List.getElem?_map, hp]
    | some p =>
      simp only [List.getElem?_map, hp, Option.map_some', arrowActive_resetArrow, hz, harr]
      cases hpa : p.arrow <;> simp [hpa]
  | some a =>
    cases hp : ps[i]? with
    | none => simp [List.getElem?_map, hp]
    | some p =>
      simp only [List.getElem?_map, hp, Option.map_some', arrowActive_setArrowIfPresent,
        arrow_resetArrow, hz, harr]
      cases hpa : p.arrow <;> simp [hpa]

theorem applyArrows_getElem?_seatObs (ps : List Player) (arrows : List ArrowState) (i : Nat) :
    ((applyArrows ps arrows)[i]?).map seatObs = (ps[i]?).map seatObs := by
  rw [applyArrows, applyArrowsLoop_getElem?]
  rw [if_pos (Nat.zero_le i), Nat.sub_zero]
  cases harr : arrows[i]? with
  | none =>
    cases hp : ps[i]? <;> simp [List.getElem?_map, hp, seatObs_resetArrow]
  | some a =>
    cases hp : ps[i]? <;>
      simp [List.getElem?_map, hp, seatObs_setArrowIfPresent, seatObs_resetArrow]

/-! ## Field projections of `applyGameState` -/

theorem applyGameState_players (gm : GameManager) (st : GameState) :
    (applyGameState gm st).players = applyArrows (applyPlayerRecords gm.players st) st.arrows := rfl

theorem applyGameState_bubbleArray (gm : GameManager) (st : GameState) :
    (applyGameState gm st).bubbleArray = st.bubbles.map fun b =>
      { x := b.x, y := b.y, radius := b.radius, dx := b.dx, dy := b.dy } := rfl

theorem applyGameState_score (gm : GameManager) (st : GameState) :
    (applyGameState gm st).score =
      match gm.score with
      | some sc => some { sc with score := st.score }
      | none => none := rfl

theorem applyGameState_timeRemaining (gm : GameManager) (st : GameState) :
    (applyGameState gm st).timeRemaining = st.timeRemaining := rfl

theorem applyGameState_currentLevel (gm : GameManager) (st : GameState) :
    (applyGameState gm st).currentLevel = st.level := rfl

/-! ## `applyPlayerRecords` lemmas -/

theorem applyPlayerRecords_getElem?_0 (ps : List Player) (st : GameState) :
    (applyPlayerRecords ps st)[0]? =
      match ps[0]?, st.player1 with
      | some p, some s => some (applyPlayerState p s)
      | _, _ => ps[0]? := by
  unfold applyPlayerRecords
  cases h0 : ps[0]? with
  | none =>
    cases st.player1 <;> cases h1 : ps[1]? <;> cases st.player2 <;>
      simp [modifyNth_getElem?, h0, h1]
  | some p =>
    cases st.player1 with
    | none =>
      cases h1 : ps[1]? <;> cases st.player2 <;>
        simp [modifyNth_getElem?, h0, h1]
    | some s =>
      have hm : (modifyNth (applyPlayerState · s) ps 0)[1]? = ps[1]? := by
        simp [modifyNth_getElem?]
      cases h1 : ps[1]? <;> cases st.player2 <;>
        simp [modifyNth_getElem?, h0, h1, hm]

theorem applyPlayerRecords_getElem?_1 (ps : List Player) (st : GameState) :
    (applyPlayerRecords ps st)[1]? =
      match ps[1]?, st.player2 with
      | some p, some s => some (applyPlayerState p s)
      | _, _ => ps[1]? := by
  unfold applyPlayerRecords
  cases h0 : ps[0]? with
  | none =>
    cases st.player1 <;> cases h1 : ps[1]? <;> cases st.player2 <;>
      simp [modifyNth_getElem?, h0, h1]
  | some p =>
    cases st.player1 with
    | none =>
      cases h1 : ps[1]? <;> cases st.player2 <;>
        simp [modifyNth_getElem?, h0, h1]
    | some s =>
      have hm : (modifyNth (applyPlayerState · s) ps 0)[1]? = ps[1]? := by
        simp [modifyNth_getElem?]
      cases h1 : ps[1]? <;> cases st.player2 <;>
        simp [modifyNth_getElem?, h0, h1, hm]

theorem map_arrow_modifyNth (f : Player → Player) (hf : ∀ p, (f p).arrow = p.arrow)
    (l : List Player) (n : Nat) :
    (modifyNth f l n).map Player.arrow = l.map Player.arrow := by
  apply List.ext_getElem?
  intro i
  simp only [List.getElem?_map, modifyNth_getElem?]
  split
  · cases l[i]? <;> simp [hf]
  · rfl

theorem applyPlayerRecords_map_arrow (ps : List Player) (st : GameState) :
    (applyPlayerRecords ps st).map Player.arrow = ps.map Player.arrow := by
  unfold applyPlayerRecords
  have hf : ∀ (s : PlayerState) (p : Player), (applyPlayerState p s).arrow = p.arrow :=
    fun _ _ => rfl
  cases h0 : ps[0]? with
  | none =>
    cases st.player1 <;> cases h1 : ps[1]? <;> cases st.player2 <;>
      simp [map_arrow_modifyNth, hf, h0, h1, modifyNth_getElem?]
  | some p =>
    cases st.player1 with
    | none =>
      cases h1 : ps[1]? <;> cases st.player2 <;>
        simp [map_arrow_modifyNth, hf, h0, h1, modifyNth_getElem?]
    | some s =>
      have hm : (modifyNth (applyPlayerState · s) ps 0)[1]? = ps[1]? := by
        simp [modifyNth_getElem?]
      cases h1 : ps[1]? <;> cases st.player2 <;>
        simp [map_arrow_modifyNth, hf, h0, h1, hm, modifyNth_getElem?]

theorem expectedFlagsLoop_congr (arrows : List ArrowState) (ps ps' : List Player)
    (h : ps.map Player.arrow = ps'.map Player.arrow) (k : Nat) :
    expectedFlagsLoop ps arrows k = expectedFlagsLoop ps' arrows k := by
  induction ps generalizing ps' k with
  | nil =>
    cases ps' with
    | nil => rfl
    | cons q rest' => simp at h
  | cons p rest ih =>
    cases ps' with
    | nil => simp at h
    | cons q rest' =>
      simp only [List.map_cons, List.cons.injEq] at h
      rw [expectedFlagsLoop, expectedFlagsLoop, h.1, ih rest' h.2]

/-! ## Claim C3 — message validation -/

theorem typeof_boolean_eq (v : JSValue) : (jsTypeof v == "boolean") = isBoolVal v := by
  cases v <;> rfl

theorem typeof_number_eq (v : JSValue) : (jsTypeof v == "number") = isNumVal v := by
  cases v <;> rfl

theorem typeof_string_eq (v : JSValue) : (jsTypeof v == "string") = isStrVal v := by
  cases v <;> rfl

theorem truthy_typeof_object_eq (v : JSValue) :
    (truthy v && (jsTypeof v == "object")) = isObjVal v := by
  cases v <;> simp [truthy, jsTypeof, isObjVal]

theorem validateInputCase_eq (m : JSValue) :
    validateInputCase m
      = (isBoolVal (getField (getField m "data") "left")
        && isBoolVal (getField (getField m "data") "right")
        && isBoolVal (getField (getField m "data") "shoot")) := by
  rw [validateInputCase]
  generalize getField m "data" = d
  cases d <;> simp [truthy, getField, isBoolVal, typeof_boolean_eq]

theorem validateStateUpdateCase_eq (m : JSValue) :
    validateStateUpdateCase m = isObjVal (getField m "data") := by
  rw [validateStateUpdateCase]
  generalize getField m "data" = d
  exact truthy_typeof_object_eq d

theorem validateGameOverCase_eq (m : JSValue) :
    validateGameOverCase m
      = (isBoolVal (getField m "won") && isNumVal (getField m "finalScore")) := by
  rw [validateGameOverCase, typeof_boolean_eq, typeof_number_eq]

theorem validatePlayerReadyCase_eq (m : JSValue) :
    validatePlayerReadyCase m = isStrVal (getField m "playerName") := by
  rw [validatePlayerReadyCase, typeof_string_eq]

theorem timestamp_guard_glue (ts : JSValue) (a b : Bool) (hab : a = b) :
    (if jsTypeof ts != "number" then false else a) = (isNumVal ts && b) := by
  subst hab
  cases ts <;> simp [jsTypeof, isNumVal]

/-- C3: `validateMessage` accepts exactly the well-formed messages of the six
variants — a tagged object with one of the six recognized type strings, a
numeric timestamp, and the required fields for its declared type present
with the right runtime types — and rejects everything else with a `false`
result (the function is total, so no exception can propagate). -/
theorem claim3_validateMessage_iff_spec (m : JSValue) : validateMessage m = specAccepts m := by
  cases m with
  | undefined => rfl
  | null => rfl
  | bool b => cases b <;> rfl
  | num n => simp [validateMessage, specAccepts, truthy, jsTypeof, isObjVal]
  | str s => simp [validateMessage, specAccepts, truthy, jsTypeof, isObjVal]
  | obj fs =>
    show (if !truthy (getField (JSValue.obj fs) "type") then false
        else if !isRecognizedTag (getField (JSValue.obj fs) "type") then false
        else if jsTypeof (getField (JSValue.obj fs) "timestamp") != "number" then false
        else match getField (JSValue.obj fs) "type" with
          | .str s => validateSwitch (JSValue.obj fs) s
          | _ => false)
      = (isNumVal (getField (JSValue.obj fs) "timestamp") && specTagPayloadOk (JSValue.obj fs))
    rw [specTagPayloadOk]
    cases ht : getField (JSValue.obj fs) "type" with
    | undefined => simp [truthy, Bool.and_false]
    | null => simp [truthy, Bool.and_false]
    | bool b => cases b <;> simp [truthy, isRecognizedTag, Bool.and_false]
    | num k => simp [truthy, isRecognizedTag, Bool.and_false]
    | obj gs => simp [truthy, isRecognizedTag, Bool.and_false]
    | str s =>
      by_cases h1 : s = "INPUT"
      · subst h1
        exact timestamp_guard_glue _ _ _ (validateInputCase_eq _)
      by_cases h2 : s = "STATE_UPDATE"
      · subst h2
        exact timestamp_guard_glue _ _ _ (validateStateUpdateCase_eq _)
      by_cases h3 : s = "SYNC"
      · subst h3
        exact timestamp_guard_glue _ _ _ rfl
      by_cases h4 : s = "GAME_OVER"
      · subst h4
        exact timestamp_guard_glue _ _ _ (validateGameOverCase_eq _)
      by_cases h5 : s = "PLAYER_READY"
      · subst h5
        exact timestamp_guard_glue _ _ _ (validatePlayerReadyCase_eq _)
      by_cases h6 : s = "START_GAME"
      · subst h6
        exact timestamp_guard_glue _ _ _ rfl
      · simp [truthy, isRecognizedTag, messageTypeValues, validateSwitch,
          h1, h2, h3, h4, h5, h6, Bool.and_false]

/-! ## Claim C2 — Scenario B application -/

/-- C2: On any simulation with two seated players (and an aggregate score
record), applying the Scenario B snapshot
`{player1:{x:100,y:200,score:5,lives:2}, bubbles:[], arrows:[], score:5,
timeRemaining:12000, level:2}` sets seat 0 to exactly `x=100, y=200,
score=5, lives=2`, empties the breakable-object collection, turns every
player's projectile-active flag off, and sets aggregate score `5`,
`timeRemaining` `12000` and level `2`. -/
theorem claim2_scenarioB_apply (gm : GameManager) (p0 p1 : Player) (sc : ScoreObj)
    (hp : gm.players = [p0, p1]) (hs : gm.score = some sc) :
    ((applyGameState gm snapshotB).players[0]?).map seatObs = some (100, 200, 5, 2)
    ∧ (applyGameState gm snapshotB).bubbleArray = []
    ∧ (∀ p ∈ (applyGameState gm snapshotB).players, arrowActive p = false)
    ∧ (applyGameState gm snapshotB).score = some { score := 5 }
    ∧ (applyGameState gm snapshotB).timeRemaining = 12000
    ∧ (applyGameState gm snapshotB).currentLevel = 2 := by
  refine ⟨?_, ?_, ?_, ?_, ?_, ?_⟩
  · rw [applyGameState_players, applyArrows_getElem?_seatObs,
      applyPlayerRecords_getElem?_0, hp]
    simp [snapshotB, seatObs, applyPlayerState]
  · rw [applyGameState_bubbleArray]; simp [snapshotB]
  · intro p hmem
    rw [applyGameState_players] at hmem
    have harr : snapshotB.arrows = [] := rfl
    rw [harr] at hmem
    rw [applyArrows] at hmem
    rw [applyArrowsLoop] at hmem
    rcases List.mem_map.mp hmem with ⟨q, _, rfl⟩
    exact arrowActive_resetArrow q
  · rw [applyGameState_score, hs]
    cases sc
    rfl
  · rw [applyGameState_timeRemaining]; rfl
  · rw [applyGameState_currentLevel]; rfl

/-- Witness for C2 at a concrete two-player simulation. -/
theorem claim2_scenarioB_apply_witness :
    ((applyGameState sampleGM snapshotB).players[0]?).map seatObs = some (100, 200, 5, 2)
    ∧ (applyGameState sampleGM snapshotB).bubbleArray = []
    ∧ (∀ p ∈ (applyGameState sampleGM snapshotB).players, arrowActive p = false)
    ∧ (applyGameState sampleGM snapshotB).score = some { score := 5 }
    ∧ (applyGameState sampleGM snapshotB).timeRemaining = 12000
    ∧ (applyGameState sampleGM snapshotB).currentLevel = 2 :=
  claim2_scenarioB_apply sampleGM samplePlayer0 samplePlayer1 { score := 9 } rfl rfl

/-! ## Claim C9 — delta snapshots with absent player records -/

/-- C9: For every snapshot whose `player1` (respectively `player2`) record is
absent, `applyGameState` leaves that seat's `x`, `y`, `score`, `lives`
unchanged, while still replacing the breakable-object collection with objects
built from the snapshot list, re-deriving every projectile-active flag
positionally from the snapshot's arrow list, and overwriting the aggregate
score (when the score record exists), `timeRemaining` and level from the
snapshot. -/
theorem claim9_absent_player_frame (gm : GameManager) (st : GameState) :
    (st.player1 = none →
      ((applyGameState gm st).players[0]?).map seatObs = (gm.players[0]?).map seatObs)
    ∧ (st.player2 = none →
      ((applyGameState gm st).players[1]?).map seatObs = (gm.players[1]?).map seatObs)
    ∧ (applyGameState gm st).bubbleArray = st.bubbles.map (fun b =>
        { x := b.x, y := b.y, radius := b.radius, dx := b.dx, dy := b.dy })
    ∧ (applyGameState gm st).players.map arrowActive = expectedArrowFlags gm.players st.arrows
    ∧ (applyGameState gm st).score =
        (match gm.score with
          | some sc => some { sc with score := st.score }
          | none => none)
    ∧ (applyGameState gm st).timeRemaining = st.timeRemaining
    ∧ (applyGameState gm st).currentLevel = st.level := by
  refine ⟨?_, ?_, applyGameState_bubbleArray gm st, ?_,
    applyGameState_score gm st, applyGameState_timeRemaining gm st,
    applyGameState_currentLevel gm st⟩
  · intro h1
    rw [applyGameState_players, applyArrows_getElem?_seatObs,
      applyPlayerRecords_getElem?_0, h1]
    cases gm.players[0]? <;> rfl
  · intro h2
    rw [applyGameState_players, applyArrows_getElem?_seatObs,
      applyPlayerRecords_getElem?_1, h2]
    cases gm.players[1]? <;> rfl
  · rw [applyGameState_players, applyArrows_map_arrowActive, expectedArrowFlags,
      expectedArrowFlags,
      expectedFlagsLoop_congr st.arrows (applyPlayerRecords gm.players st) gm.players
        (applyPlayerRecords_map_arrow gm.players st)]

/-! ## Claim C1 — serialize/apply round trip -/

theorem serialize_apply_bubbles (bs : List BubbleObj) :
    (serializeBubbles bs).map (fun b =>
      ({ x := b.x, y := b.y, radius := b.radius, dx := b.dx, dy := b.dy } : BubbleObj)) = bs := by
  induction bs with
  | nil => rfl
  | cons b rest ih =>
    cases b
    simp only [serializeBubbles, List.map_cons, List.map_map] at ih ⊢
    rw [List.cons.injEq]
    exact ⟨by simp [jsOr_zero], ih⟩

/-- C1 counterexample: the round trip is not observation-preserving on the
code as written.  With seat-0 `lives = 0`, serialization substitutes the
falsy-default `3`, so lives change; with only seat 1's arrow active, the
serializer emits a single positional slot that `applyArrows` applies to
seat 0, so projectile activity moves to the wrong seat. -/
theorem claim1_roundtrip_counterexample :
    ((applyGameState zeroLivesGM (serializeGameState zeroLivesGM)).players.map seatObs
      ≠ zeroLivesGM.players.map seatObs)
    ∧ ((applyGameState lonelyArrowGM (serializeGameState lonelyArrowGM)).players.map arrowActive
      ≠ lonelyArrowGM.players.map arrowActive) := by
  decide

/-- C1 (amended): applying `serializeGameState gm` back onto `gm` reproduces
the observable seat positions, scores and lives, the breakable-object list,
and the per-seat projectile activity, provided each seated player's lives
value is nonzero (the serializer defaults falsy lives to 3), both seats hold
arrow objects, and seat 1's arrow is active only when seat 0's also is (the
serializer omits inactive slots while application matches positionally). -/
theorem claim1_roundtrip_amended (gm : GameManager) (p0 p1 : Player) (a0 a1 : ArrowObj)
    (hp : gm.players = [p0, p1])
    (ha0 : p0.arrow = some a0) (ha1 : p1.arrow = some a1)
    (hl0 : p0.lives ≠ 0) (hl1 : p1.lives ≠ 0)
    (hpre : a1.isActive = true → a0.isActive = true) :
    (applyGameState gm (serializeGameState gm)).players.map seatObs = gm.players.map seatObs
    ∧ (applyGameState gm (serializeGameState gm)).bubbleArray = gm.bubbleArray
    ∧ (applyGameState gm (serializeGameState gm)).players.map arrowActive
        = gm.players.map arrowActive := by
  obtain ⟨ps, bub, sco, t, lvl⟩ := gm
  simp only at hp
  subst hp
  refine ⟨?_, ?_, ?_⟩
  · cases hact0 : a0.isActive <;> cases hact1 : a1.isActive <;>
      [skip; exact absurd (hpre hact1) (by simp [hact0]); skip; skip] <;>
      simp [applyGameState, applyPlayerRecords, applyBubbles, applyArrows,
        applyArrowsLoop, applyArrowAt, modifyNth, serializeGameState, serializePlayer,
        serializeArrows, resetArrow, setArrowIfPresent, applyPlayerState, seatObs,
        jsOr_zero, jsOr_of_ne _ _ hl0, jsOr_of_ne _ _ hl1, ha0, ha1, hact0, hact1]
  · exact (applyGameState_bubbleArray _ _).trans (serialize_apply_bubbles bub)
  · cases hact0 : a0.isActive <;> cases hact1 : a1.isActive <;>
      [skip; exact absurd (hpre hact1) (by simp [hact0]); skip; skip] <;>
      simp [applyGameState, applyPlayerRecords, applyBubbles, applyArrows,
        applyArrowsLoop, applyArrowAt, modifyNth, serializeGameState, serializePlayer,
        serializeArrows, resetArrow, setArrowIfPresent, applyPlayerState, arrowActive,
        jsOr_zero, jsOr_of_ne _ _ hl0, jsOr_of_ne _ _ hl1, ha0, ha1, hact0, hact1]

/-- Witness for the amended C1 at a concrete well-formed simulation. -/
theorem claim1_roundtrip_amended_witness :
    (applyGameState roundTripGM (serializeGameState roundTripGM)).players.map seatObs
      = roundTripGM.players.map seatObs
    ∧ (applyGameState roundTripGM (serializeGameState roundTripGM)).bubbleArray
      = roundTripGM.bubbleArray
    ∧ (applyGameState roundTripGM (serializeGameState roundTripGM)).players.map arrowActive
      = roundTripGM.players.map arrowActive :=
  claim1_roundtrip_amended roundTripGM rtPlayer0 rtPlayer1 rtArrow0 rtArrow1
    rfl rfl rfl (by decide) (by decide) (by decide)

/-! ## Claim C4 — lobby ready handshake -/

/-- C4: In the lobby ready exchange, a step emits `START_GAME` exactly when
the local peer is the host, the step ran `checkBothReady` (an accepted `R`
press or a received `PLAYER_READY`), and both ready flags are true after the
step; and the step's `started` flag is the old one, or set by receiving
`START_GAME`, or — host only — set together with that very send.  In
particular a non-host never sends `START_GAME` and reaches the started state
only by receiving `START_GAME`. -/
theorem claim4_ready_handshake (isHostPlayer : Bool) (s : LobbyState) (e : LobbyEvent) :
    (sentStartGame (lobbyStep isHostPlayer s e).2
      = (isHostPlayer && (lobbyStep isHostPlayer s e).1.isReady
          && (lobbyStep isHostPlayer s e).1.remoteReady && checkInvoked s e))
    ∧ ((lobbyStep isHostPlayer s e).1.started
      = (s.started || isRecvStartGame e
          || (isHostPlayer && (lobbyStep isHostPlayer s e).1.isReady
              && (lobbyStep isHostPlayer s e).1.remoteReady && checkInvoked s e))) := by
  obtain ⟨mode, rci, ir, rr, st⟩ := s
  cases e with
  | keyR conn =>
    cases mode <;> cases conn <;> cases ir <;> cases rr <;> cases isHostPlayer <;>
      simp [lobbyStep, checkBothReady, checkInvoked, sentStartGame, isRecvStartGame]
  | recvPlayerReady =>
    cases ir <;> cases rr <;> cases isHostPlayer <;>
      simp [lobbyStep, checkBothReady, checkInvoked, sentStartGame, isRecvStartGame]
  | recvStartGame =>
    simp [lobbyStep, checkInvoked, sentStartGame, isRecvStartGame]
  | keyEscape =>
    cases mode <;>
      simp [lobbyStep, checkInvoked, sentStartGame, isRecvStartGame]

/-! ## Claim C5 — StateUpdate is host-gated -/

/-- C5: `handleNetworkMessage` applies a received `STATE_UPDATE` snapshot to
the simulation only when the local role is not host (and a simulation
exists); a host's simulation is never changed by a received `STATE_UPDATE`,
and no other message type touches the simulation. -/
theorem claim5_stateUpdate_host_gated (s : MPState) (m : NetMsg) :
    (handleNetworkMessage s m).gameManager =
      (match m with
       | .stateUpdate st _ =>
         if s.isHost then s.gameManager
         else s.gameManager.map (fun gm => applyGameState gm st)
       | _ => s.gameManager) := by
  cases m <;> simp only [handleNetworkMessage]
  case stateUpdate st _ =>
    cases h : s.isHost <;> cases hg : s.gameManager <;> simp [h, hg]

/-! ## Claim C6 — send gating -/

/-- C6 counterexample: `send` consults only the connection object and its
channel-open flag, not the status value — in a state whose status is
`error` but whose channel still reports open, the message is transmitted,
contradicting "transmits only if the connection status is connected". -/
theorem claim6_send_counterexample :
    (send errOpenState (NetMsg.sync 0) false).1 = [SendAction.transmitted (NetMsg.sync 0)]
    ∧ errOpenState.status ≠ ConnStatus.connected := by
  exact ⟨rfl, by decide⟩

/-- C6 (amended): `send` transmits exactly when a connection object exists,
its channel reports open, and the transport call does not throw (a throw is
caught and logged, never propagated); whenever the channel is not open the
message is dropped with a warning; and the manager state is returned
unchanged in every case — nothing is queued or retried.  The connection
status value is not consulted. -/
theorem claim6_send_amended (s : NetworkManagerState) (m : NetMsg) (transportFails : Bool) :
    ((SendAction.transmitted m ∈ (send s m transportFails).1)
      ↔ (channelOpen s = true ∧ transportFails = false))
    ∧ (channelOpen s = false → (send s m transportFails).1 = [SendAction.warned])
    ∧ (send s m transportFails).2 = s := by
  cases hc : s.connection with
  | none => simp [send, channelOpen, hc]
  | some c =>
    cases ho : c.isOpen <;> cases transportFails <;>
      simp [send, channelOpen, hc, ho]

/-- Witness for the amended C6: a state with an open channel transmits and
one with no connection warns, with the state unchanged. -/
theorem claim6_send_amended_witness :
    (SendAction.transmitted (NetMsg.sync 0) ∈ (send errOpenState (NetMsg.sync 0) false).1)
    ∧ (send closedState (NetMsg.sync 0) false).1 = [SendAction.warned]
    ∧ (send closedState (NetMsg.sync 0) false).2 = closedState :=
  ⟨((claim6_send_amended errOpenState (NetMsg.sync 0) false).1).mpr ⟨rfl, rfl⟩,
   (claim6_send_amended closedState (NetMsg.sync 0) false).2.1 rfl,
   (claim6_send_amended closedState (NetMsg.sync 0) false).2.2⟩

/-! ## Claim C7 — room code shape -/

/-- C7: every room code the generator can produce has exactly 6 characters,
each drawn from the uppercase alphanumeric alphabet `[A-Z0-9]`. -/
theorem claim7_roomCode_shape (r : Nat → Fin 36) :
    (generateRoomCode r).length = 6
    ∧ ∀ c ∈ (generateRoomCode r).data,
        ('A' ≤ c ∧ c ≤ 'Z') ∨ ('0' ≤ c ∧ c ≤ '9') := by
  constructor
  · simp [generateRoomCode, String.length]
  · intro c hc
    simp only [generateRoomCode, List.mem_map, List.mem_range] at hc
    obtain ⟨i, _, rfl⟩ := hc
    have hmem : roomChars.get (Fin.cast (by decide) (r i)) ∈ roomChars :=
      List.get_mem roomChars _ (Fin.cast (by decide) (r i)).isLt
    revert hmem
    generalize roomChars.get (Fin.cast (by decide) (r i)) = c
    intro hmem
    exact (by decide :
      ∀ c ∈ roomChars, ('A' ≤ c ∧ c ≤ 'Z') ∨ ('0' ≤ c ∧ c ≤ '9')) c hmem

/-- Witness for C7 at the constant-zero random stream. -/
theorem claim7_roomCode_shape_witness :
    (generateRoomCode (fun _ => (0 : Fin 36))).length = 6
    ∧ (('A' ≤ 'A' ∧ 'A' ≤ 'Z') ∨ ('0' ≤ 'A' ∧ 'A' ≤ '9')) :=
  ⟨(claim7_roomCode_shape (fun _ => (0 : Fin 36))).1,
   (claim7_roomCode_shape (fun _ => (0 : Fin 36))).2 'A' (by decide)⟩

/-! ## Claim C8 — applying a left input to the guest seat -/

/-- C8: applying `Input{left:true, right:false, shoot:false}` to seat 1 sets
that seat's movement to exactly `LEFT` whatever it was before, leaves the
rest of that seat (position, score, lives, arrow) unchanged, and leaves
seat 0 entirely unchanged. -/
theorem claim8_left_input_guest_seat (s : MPState) (gm : GameManager) (p1 : Player)
    (hg : s.gameManager = some gm) (h1 : gm.players[1]? = some p1) :
    ∃ gm',
      (applyInputToPlayer s 1 { left := true, right := false, shoot := false }).gameManager
        = some gm'
      ∧ (gm'.players[1]?).map Player.movement = some Movement.LEFT
      ∧ gm'.players[0]? = gm.players[0]?
      ∧ (gm'.players[1]?).map (fun q => (q.x, q.y, q.score, q.lives, q.arrow))
          = some (p1.x, p1.y, p1.score, p1.lives, p1.arrow) := by
  apply Exists.intro
    { gm with players :=
        modifyNth (applyInput { left := true, right := false, shoot := false }) gm.players 1 }
  refine ⟨?_, ?_, ?_, ?_⟩
  · simp [applyInputToPlayer, hg, h1]
  · simp [modifyNth_getElem?, h1, applyInput]
  · simp [modifyNth_getElem?]
  · simp [modifyNth_getElem?, h1, applyInput]

/-- Witness for C8 at a concrete two-player state. -/
theorem claim8_left_input_guest_seat_witness :
    ∃ gm',
      (applyInputToPlayer sampleMPState 1
          { left := true, right := false, shoot := false }).gameManager = some gm'
      ∧ (gm'.players[1]?).map Player.movement = some Movement.LEFT
      ∧ gm'.players[0]? = sampleGM.players[0]?
      ∧ (gm'.players[1]?).map (fun q => (q.x, q.y, q.score, q.lives, q.arrow))
          = some (samplePlayer1.x, samplePlayer1.y, samplePlayer1.score,
              samplePlayer1.lives, samplePlayer1.arrow) :=
  claim8_left_input_guest_seat sampleMPState sampleGM samplePlayer1 rfl rfl

/-! ## Claim C10 — joinRoom upper-cases the room code -/

theorem isLower_eq_decide (c : Char) :
    c.isLower = decide (97 ≤ c.toNat ∧ c.toNat ≤ 122) := by
  rw [Char.isLower, Bool.decide_and]
  rfl

theorem char_toNat_ofNat_valid (n : Nat) (h : n.isValidChar) :
    (Char.ofNat n).toNat = n := by
  rw [Char.ofNat, dif_pos h]
  rfl

theorem toUpper_isLower_false (c : Char) : (Char.toUpper c).isLower = false := by
  rw [Char.toUpper]
  by_cases h : c.toNat ≥ 97 ∧ c.toNat ≤ 122
  · rw [if_pos h]
    have hvalid : (Char.toNat c - 32).isValidChar := Or.inl (by omega)
    rw [isLower_eq_decide, char_toNat_ofNat_valid _ hvalid]
    simp only [decide_eq_false_iff_not]
    omega
  · rw [if_neg h, isLower_eq_decide]
    simp only [decide_eq_false_iff_not]
    exact h

/-- C10: `joinRoom` stores the upper-cased code as the room code, the stored
code never contains a lowercase letter, and the peer id it connects to is
exactly that stored upper-cased code — so a code entered in lowercase
rendezvouses with the room created under its uppercase form. -/
theorem claim10_joinRoom_uppercase (s : NetworkManagerState) (code : String) :
    (joinRoom s code).state.roomCode = jsToUpperCase code
    ∧ (∀ c ∈ ((joinRoom s code).state.roomCode).data, c.isLower = false)
    ∧ (joinRoom s code).connectTarget = (joinRoom s code).state.roomCode
    ∧ (joinRoom s code).state.isHost = false
    ∧ (joinRoom s code).state.status = ConnStatus.connecting := by
  refine ⟨rfl, ?_, rfl, rfl, rfl⟩
  intro c hc
  simp only [joinRoom, jsToUpperCase, List.mem_map] at hc
  obtain ⟨d, _, rfl⟩ := hc
  exact toUpper_isLower_false d

/-- Witness for C10 at a concrete lowercase code. -/
theorem claim10_joinRoom_uppercase_witness :
    (joinRoom closedState "ab12c9").state.roomCode = jsToUpperCase "ab12c9"
    ∧ Char.isLower 'A' = false
    ∧ (joinRoom closedState "ab12c9").connectTarget
        = (joinRoom closedState "ab12c9").state.roomCode :=
  have h := claim10_joinRoom_uppercase closedState "ab12c9"
  ⟨h.1, h.2.1 'A' (by decide), h.2.2.1⟩

/-- Witness for C9 at a concrete simulation and a concrete delta snapshot
with both player records absent. -/
theorem claim9_absent_player_frame_witness :
    ((applyGameState sampleGM sampleDeltaState).players[0]?).map seatObs
      = (sampleGM.players[0]?).map seatObs
    ∧ ((applyGameState sampleGM sampleDeltaState).players[1]?).map seatObs
      = (sampleGM.players[1]?).map seatObs
    ∧ (applyGameState sampleGM sampleDeltaState).bubbleArray
      = sampleDeltaState.bubbles.map (fun b =>
          { x := b.x, y := b.y, radius := b.radius, dx := b.dx, dy := b.dy })
    ∧ (applyGameState sampleGM sampleDeltaState).players.map arrowActive
      = expectedArrowFlags sampleGM.players sampleDeltaState.arrows :=
  have h := claim9_absent_player_frame sampleGM sampleDeltaState
  ⟨h.1 rfl, h.2.1 rfl, h.2.2.1, h.2.2.2.1⟩

end Bubble
